import Mathlib

/-!
Verification development for the statistical core of the datavizaistoryteller2
web application.  The TypeScript sources under `src/lib` are shallowly embedded:
JavaScript numbers are modelled as rationals extended with NaN and the two
infinities, JavaScript runtime values as a tagged union, datasets as ordered
association-list rows, and every statistical routine is translated
definitionally from the source.  Machine floating point is replaced by exact
rational arithmetic; `Math.sqrt` is modelled exactly on perfect squares of
rationals (the only case any theorem below depends on) and by an integer
square-root approximation elsewhere.
-/

set_option maxHeartbeats 1000000

/-- A JavaScript number: a finite rational, NaN, or one of the infinities. -/
inductive JSNum where
  | num (q : ℚ)
  | nan
  | inf
  | ninf
deriving DecidableEq, Repr

namespace JSNum

/-- The `isNaN` predicate of JavaScript. -/
def isNaNb : JSNum → Bool
  | nan => true
  | _ => false

/-- The `isFinite` predicate of JavaScript. -/
def isFiniteb : JSNum → Bool
  | num _ => true
  | _ => false

/-- JavaScript addition on extended numbers. -/
def add : JSNum → JSNum → JSNum
  | nan, _ => nan
  | _, nan => nan
  | inf, ninf => nan
  | ninf, inf => nan
  | inf, _ => inf
  | _, inf => inf
  | ninf, _ => ninf
  | _, ninf => ninf
  | num a, num b => num (a + b)

/-- JavaScript unary negation. -/
def neg : JSNum → JSNum
  | nan => nan
  | inf => ninf
  | ninf => inf
  | num a => num (-a)

/-- JavaScript subtraction. -/
def sub (a b : JSNum) : JSNum := add a (neg b)

/-- JavaScript multiplication; `Infinity * 0` is NaN. -/
def mul : JSNum → JSNum → JSNum
  | nan, _ => nan
  | _, nan => nan
  | num a, num b => num (a * b)
  | inf, num b => if 0 < b then inf else if b < 0 then ninf else nan
  | num a, inf => if 0 < a then inf else if a < 0 then ninf else nan
  | ninf, num b => if 0 < b then ninf else if b < 0 then inf else nan
  | num a, ninf => if 0 < a then ninf else if a < 0 then inf else nan
  | inf, inf => inf
  | inf, ninf => ninf
  | ninf, inf => ninf
  | ninf, ninf => inf

/-- JavaScript division; `0/0` is NaN, a nonzero rational divided by zero is a
signed infinity, and infinity divided by infinity is NaN. -/
def div : JSNum → JSNum → JSNum
  | nan, _ => nan
  | _, nan => nan
  | num a, num b =>
      if b ≠ 0 then num (a / b)
      else if 0 < a then inf
      else if a < 0 then ninf
      else nan
  | num _, inf => num 0
  | num _, ninf => num 0
  | inf, num b => if 0 ≤ b then inf else ninf
  | ninf, num b => if 0 ≤ b then ninf else inf
  | inf, _ => nan
  | ninf, _ => nan

/-- JavaScript `Math.abs`. -/
def absOp : JSNum → JSNum
  | nan => nan
  | inf => inf
  | ninf => inf
  | num a => num |a|

/-- JavaScript `Math.floor`. -/
def floorOp : JSNum → JSNum
  | nan => nan
  | inf => inf
  | ninf => ninf
  | num a => num (⌊a⌋ : ℤ)

/-- JavaScript strict less-than; any comparison with NaN is false. -/
def ltb : JSNum → JSNum → Bool
  | num a, num b => a < b
  | num _, inf => true
  | ninf, num _ => true
  | ninf, inf => true
  | _, _ => false

/-- JavaScript less-or-equal; any comparison with NaN is false. -/
def leb : JSNum → JSNum → Bool
  | num a, num b => a ≤ b
  | num _, inf => true
  | ninf, num _ => true
  | ninf, inf => true
  | inf, inf => true
  | ninf, ninf => true
  | _, _ => false

/-- JavaScript strict greater-than. -/
def gtb (a b : JSNum) : Bool := ltb b a

/-- JavaScript greater-or-equal. -/
def geb (a b : JSNum) : Bool := leb b a

/-- Binary `Math.min`; NaN is absorbing. -/
def minOp : JSNum → JSNum → JSNum
  | nan, _ => nan
  | _, nan => nan
  | num a, num b => num (min a b)
  | ninf, _ => ninf
  | _, ninf => ninf
  | inf, x => x
  | x, inf => x

/-- Binary `Math.max`; NaN is absorbing. -/
def maxOp : JSNum → JSNum → JSNum
  | nan, _ => nan
  | _, nan => nan
  | num a, num b => num (max a b)
  | inf, _ => inf
  | _, inf => inf
  | ninf, x => x
  | x, ninf => x

end JSNum

/-- Best rational approximation used to model `Math.sqrt` on rationals: exact
on perfect squares (the only case the theorems below rely on), an integer
square-root approximation otherwise, and `0` on nonpositive input (the callers
in this code base only ever take square roots of sums and products of squares,
which are nonnegative). -/
def ratSqrt (q : ℚ) : ℚ :=
  if q ≤ 0 then 0 else (Nat.sqrt q.num.toNat : ℚ) / (Nat.sqrt q.den : ℚ)

/-- JavaScript `Math.sqrt` on extended numbers. -/
def JSNum.sqrtOp : JSNum → JSNum
  | nan => nan
  | ninf => nan
  | inf => inf
  | num q => if q < 0 then nan else num (ratSqrt q)

/-- Rounding of a rational to the nearest integer, ties toward positive
infinity, as the `toFixed` specification prescribes for exactly representable
values (floor of `x + 1/2`, written with floor division so that it evaluates
by kernel reduction). -/
def ratRound (x : ℚ) : ℤ := (x + 1 / 2).num.fdiv ((x + 1 / 2).den : ℤ)

/-- Rounding to two decimal places, modelling `Number(x.toFixed(2))` on finite
numbers. -/
def round2 (q : ℚ) : ℚ := ((ratRound (q * 100) : ℤ) : ℚ) / 100

/-- The composite `Number(x.toFixed(2))`: rounds finite numbers to two decimal
places; NaN and the infinities render and re-parse to themselves. -/
def JSNum.toFixed2 : JSNum → JSNum
  | num q => num (round2 q)
  | x => x

/-- A JavaScript runtime value as it appears in a parsed data row. -/
inductive JSVal where
  | vnull
  | vundefined
  | vbool (b : Bool)
  | vnum (q : ℚ)
  | vstr (s : String)
deriving DecidableEq, Repr

/-- Whether a character counts as trimmable whitespace. -/
def isWSChar (c : Char) : Bool :=
  c = ' ' || c = '\t' || c = '\n' || c = '\r'

/-- Whitespace trimming on both ends, modelling `String.prototype.trim`
(written structurally so that it evaluates by kernel reduction). -/
def trimString (s : String) : String :=
  String.mk (((s.toList.dropWhile isWSChar).reverse.dropWhile isWSChar).reverse)

/-- Lower-casing of a string, modelling `String.prototype.toLowerCase` on the
basic latin range (written structurally so that it evaluates by kernel
reduction). -/
def lowerString (s : String) : String :=
  String.mk (s.toList.map Char.toLower)

/-- Digit-list to natural number accumulator. -/
def digitsToNat : List Char → ℕ → ℕ
  | [], acc => acc
  | c :: cs, acc => digitsToNat cs (acc * 10 + (c.toNat - 48))

/-- Parses an unsigned decimal literal (`digits`, `digits.digits`, `.digits`,
`digits.`); returns `none` on anything else. -/
def parseDec (cs : List Char) : Option ℚ :=
  let ip := cs.takeWhile (fun c => c ≠ '.')
  let rest := cs.drop ip.length
  if ip.all Char.isDigit then
    match rest with
    | [] => if ip.isEmpty then none else some ((digitsToNat ip 0 : ℚ))
    | '.' :: fr =>
        if fr.all Char.isDigit && (!ip.isEmpty || !fr.isEmpty) then
          some ((digitsToNat ip 0 : ℚ) + (digitsToNat fr 0 : ℚ) / (10 ^ fr.length : ℚ))
        else none
    | _ => none
  else none

/-- The string-to-number coercion of JavaScript `Number(...)` restricted to
trimmed plain decimal literals and the infinity keywords; exponent and hex
forms (unused by this code base and by every claim) coerce to NaN in the
model. -/
def parseNumStr (s : String) : JSNum :=
  let t := trimString s
  if t = "" then .num 0
  else if t = "Infinity" || t = "+Infinity" then .inf
  else if t = "-Infinity" then .ninf
  else
    match t.toList with
    | '-' :: r => (match parseDec r with | some q => .num (-q) | none => .nan)
    | '+' :: r => (match parseDec r with | some q => .num q | none => .nan)
    | r => (match parseDec r with | some q => .num q | none => .nan)

/-- The `Number(...)` coercion of JavaScript on runtime values. -/
def jsToNumber : JSVal → JSNum
  | .vnull => .num 0
  | .vundefined => .nan
  | .vbool b => .num (if b then 1 else 0)
  | .vnum q => .num q
  | .vstr s => parseNumStr s

/-- Decimal rendering of a rational: exact for integers (matching JavaScript
`String(...)` there); non-integer rationals render as `num/den`, which never
collides with any keyword or canonical array-index string the code compares
against. -/
def ratToString (q : ℚ) : String :=
  if q.den = 1 then toString q.num else toString q.num ++ "/" ++ toString q.den

/-- The `String(...)` coercion of JavaScript on runtime values. -/
def jsToString : JSVal → String
  | .vnull => "null"
  | .vundefined => "undefined"
  | .vbool b => if b then "true" else "false"
  | .vnum q => ratToString q
  | .vstr s => s

/-- The `typeof` operator of JavaScript (restricted to the modelled values). -/
def jsTypeof : JSVal → String
  | .vnull => "object"
  | .vundefined => "undefined"
  | .vbool _ => "boolean"
  | .vnum _ => "number"
  | .vstr _ => "string"

/-- A parsed data row: an ordered association list from column names to cell
values, modelling a JavaScript record object. -/
def Row : Type := List (String × JSVal)

instance : DecidableEq Row := inferInstanceAs (DecidableEq (List (String × JSVal)))

instance : Repr Row := inferInstanceAs (Repr (List (String × JSVal)))

/-- Property access `row[columnName]`: a missing key reads as `undefined`. -/
def rowGet (r : Row) (k : String) : JSVal :=
  match r.lookup k with
  | some v => v
  | none => .vundefined

/-- The column type tags of the application. -/
inductive ColType where
  | number
  | string
  | date
  | boolean
deriving DecidableEq, Repr

/-- The `DataColumn` record of `types/analytics.ts`. -/
structure DataColumn where
  name : String
  type : ColType
  sample : List JSVal
  nullCount : ℕ
  uniqueCount : ℕ
deriving DecidableEq, Repr

/-- The `DataSet` record of `types/analytics.ts`; `uploadedAt` is an abstract
timestamp. -/
structure DataSet where
  name : String
  rows : List Row
  columns : List DataColumn
  rowCount : ℕ
  uploadedAt : ℤ
deriving DecidableEq, Repr

/-- The `skewnessType` classification tags. -/
inductive SkewType where
  | symmetric
  | rightSkewed
  | leftSkewed
deriving DecidableEq, Repr

/-- A mode value, which the source stores as either a number or a string. -/
inductive ModeVal where
  | ofNum (x : JSNum)
  | ofStr (s : String)
deriving DecidableEq, Repr

/-- The `StatSummary` record of `types/analytics.ts`.  Optional numeric fields
are absent (`none`) exactly where the source leaves them `undefined`. -/
structure StatSummary where
  column : String
  mean : Option JSNum := none
  median : Option JSNum := none
  mode : Option ModeVal := none
  min : Option JSNum := none
  max : Option JSNum := none
  std : Option JSNum := none
  variance : Option JSNum := none
  skewness : Option JSNum := none
  skewnessType : Option SkewType := none
  kurtosis : Option JSNum := none
  count : ℕ
  nullCount : ℕ
  uniqueCount : ℕ
deriving DecidableEq, Repr

/-- The single JavaScript exception kind the embedded code can raise
(`TypeError` from a property access on `undefined`). -/
inductive JSException where
  | typeError
deriving DecidableEq, Repr

/-- The null-filter used throughout the sources:
`v !== null && v !== undefined && v !== ''`. -/
def notNullish (v : JSVal) : Bool :=
  v ≠ JSVal.vnull && v ≠ JSVal.vundefined && v ≠ JSVal.vstr ""

/-- All raw values of one column, in row order. -/
def rawColumnValues (ds : DataSet) (c : String) : List JSVal :=
  ds.rows.map (fun r => rowGet r c)

/-- `dataset.columns.find(c => c.name === columnName)`. -/
def columnLookup (ds : DataSet) (c : String) : Option DataColumn :=
  ds.columns.find? (fun col => col.name = c)

/-- The valid numeric values of a column as computed by `calculateStatistics`:
non-null values coerced by `Number` with NaN dropped (infinities are kept,
because the source filters with `isNaN` only). -/
def statNumValues (ds : DataSet) (c : String) : List JSNum :=
  (((rawColumnValues ds c).filter notNullish).map jsToNumber).filter
    (fun n => !n.isNaNb)

/-- Stable insertion step for the ascending numeric sort `(a, b) => a - b`. -/
def insertAscNum (x : JSNum) : List JSNum → List JSNum
  | [] => [x]
  | y :: ys => if JSNum.leb x y then x :: y :: ys else y :: insertAscNum x ys

/-- Ascending stable sort of a numeric list, modelling
`[...numValues].sort((a, b) => a - b)`. -/
def sortAsc (l : List JSNum) : List JSNum := l.foldr insertAscNum []

/-- `values.reduce((a, b) => a + b, 0)`. -/
def jsSum (l : List JSNum) : JSNum := l.foldl JSNum.add (.num 0)

/-- `Math.min(...values)`: the fold of binary `Math.min` from `Infinity`. -/
def jsMinList (l : List JSNum) : JSNum := l.foldl JSNum.minOp .inf

/-- `Math.max(...values)`: the fold of binary `Math.max` from `-Infinity`. -/
def jsMaxList (l : List JSNum) : JSNum := l.foldl JSNum.maxOp .ninf

/-- One step of frequency counting: bump the count of `k`, appending a fresh
entry on first encounter (insertion order preserved). -/
def bumpKey {α : Type} [DecidableEq α] (k : α) : List (α × ℕ) → List (α × ℕ)
  | [] => [(k, 1)]
  | (a, n) :: t => if a = k then (a, n + 1) :: t else (a, n) :: bumpKey k t

/-- Frequency map of a list in first-encounter order. -/
def countFreq {α : Type} [DecidableEq α] (l : List α) : List (α × ℕ) :=
  l.foldl (fun acc v => bumpKey v acc) []

/-- Whether a numeric frequency key stringifies to a canonical array index
(JavaScript object key enumeration lists those first, in ascending order). -/
def isIdxKeyNum (x : JSNum) : Bool :=
  match x with
  | .num q => decide (q.den = 1 ∧ 0 ≤ q.num)
  | _ => false

/-- Insertion step for sorting numeric frequency entries by ascending key. -/
def insertByKeyAscNum (x : JSNum × ℕ) :
    List (JSNum × ℕ) → List (JSNum × ℕ)
  | [] => [x]
  | y :: ys =>
      if JSNum.leb x.1 y.1 then x :: y :: ys else y :: insertByKeyAscNum x ys

/-- `Object.entries` enumeration order for a numeric-keyed frequency map:
canonical array-index keys ascending first, then the rest in insertion
order. -/
def entriesOrderNum (l : List (JSNum × ℕ)) : List (JSNum × ℕ) :=
  (l.filter (fun p => isIdxKeyNum p.1)).foldr insertByKeyAscNum [] ++
    l.filter (fun p => !isIdxKeyNum p.1)

/-- Whether a string is a canonical array-index key. -/
def isIdxKeyStr (s : String) : Bool :=
  !s.isEmpty && s.toList.all Char.isDigit &&
    (s = "0" || s.toList.head? ≠ some '0')

/-- Insertion step for sorting string array-index entries by ascending numeric
value. -/
def insertByKeyAscStr (x : String × ℕ) :
    List (String × ℕ) → List (String × ℕ)
  | [] => [x]
  | y :: ys =>
      if digitsToNat x.1.toList 0 ≤ digitsToNat y.1.toList 0 then x :: y :: ys
      else y :: insertByKeyAscStr x ys

/-- `Object.entries` enumeration order for a string-keyed frequency map. -/
def entriesOrderStr (l : List (String × ℕ)) : List (String × ℕ) :=
  (l.filter (fun p => isIdxKeyStr p.1)).foldr insertByKeyAscStr [] ++
    l.filter (fun p => !isIdxKeyStr p.1)

/-- Stable insertion step for `sort((a, b) => b[1] - a[1])`: descending count,
ties keep enumeration order. -/
def insertByCntDesc {α : Type} (x : α × ℕ) : List (α × ℕ) → List (α × ℕ)
  | [] => [x]
  | y :: ys => if y.2 ≤ x.2 then x :: y :: ys else y :: insertByCntDesc x ys

/-- Stable sort of frequency entries by descending count. -/
def sortByCntDesc {α : Type} (l : List (α × ℕ)) : List (α × ℕ) :=
  l.foldr insertByCntDesc []

/-- The mode of a numeric value list, as computed by the frequency-map pass of
`calculateStatistics` (`Object.entries(freq).sort((a, b) => b[1] - a[1])[0]`). -/
def modeOfNums (l : List JSNum) : Option JSNum :=
  ((sortByCntDesc (entriesOrderNum (countFreq l))).head?).map (fun p => p.1)

/-- The mode of a string value list (categorical branch). -/
def modeOfStrs (l : List String) : Option String :=
  ((sortByCntDesc (entriesOrderStr (countFreq l))).head?).map (fun p => p.1)

/-- The per-column body of `calculateStatistics`
(`pdfReportGenerator.ts` lines 165-217).  The numeric branch raises the
`TypeError` that `median.toFixed(2)` produces when the sorted value list is
empty (indexing past the end of an array yields `undefined`). -/
def statForColumn (ds : DataSet) (c : String) : Except JSException StatSummary :=
  let values := rawColumnValues ds c
  let nonNullValues := values.filter notNullish
  if (columnLookup ds c).map DataColumn.type = some ColType.number then
    let numValues := (nonNullValues.map jsToNumber).filter (fun n => !n.isNaNb)
    let sorted := sortAsc numValues
    let sum := jsSum numValues
    let mean := JSNum.div sum (.num numValues.length)
    let minV := jsMinList numValues
    let maxV := jsMaxList numValues
    let squaredDiffs :=
      numValues.map (fun v => JSNum.mul (JSNum.sub v mean) (JSNum.sub v mean))
    let variance := JSNum.div (jsSum squaredDiffs) (.num numValues.length)
    let std := JSNum.sqrtOp variance
    let mode := modeOfNums numValues
    match sorted.get? (sorted.length / 2) with
    | none => .error .typeError
    | some med =>
        .ok { column := c
              mean := some mean.toFixed2
              median := some med.toFixed2
              mode := mode.map ModeVal.ofNum
              min := some minV.toFixed2
              max := some maxV.toFixed2
              std := some std.toFixed2
              variance := some variance.toFixed2
              count := numValues.length
              nullCount := values.length - nonNullValues.length
              uniqueCount := numValues.dedup.length }
  else
    .ok { column := c
          mode := (modeOfStrs (nonNullValues.map jsToString)).map ModeVal.ofStr
          count := nonNullValues.length
          nullCount := values.length - nonNullValues.length
          uniqueCount := (nonNullValues.map jsToString).dedup.length }

/-- `calculateStatistics` of `pdfReportGenerator.ts`: maps the per-column body
over the selected columns; the first thrown `TypeError` propagates. -/
def calculateStatistics (ds : DataSet) : List String → Except JSException (List StatSummary)
  | [] => .ok []
  | c :: cs => do
      let s ← statForColumn ds c
      let rest ← calculateStatistics ds cs
      pure (s :: rest)

/-- The sorted valid numeric value sequence of a column, as used by the median
computation of `calculateStatistics`. -/
def sortedColumnValues (ds : DataSet) (c : String) : List JSNum :=
  sortAsc (statNumValues ds c)

/-- The index-paired values kept by the correlation and regression loops:
`zip` truncates to the shorter input (the loops run to
`Math.min(xValues.length, yValues.length)`), and a pair survives exactly when
both components are finite numbers
(`!isNaN(x) && !isNaN(y) && isFinite(x) && isFinite(y)`). -/
def finitePairs (xs ys : List JSNum) : List (ℚ × ℚ) :=
  (xs.zip ys).filterMap (fun p =>
    match p with
    | (.num a, .num b) => some (a, b)
    | _ => none)

/-- `calculateCorrelation` of `correlationAnalysis.ts` (Pearson r).  The three
loop accumulators are written as sums over the filtered pair list. -/
def calculateCorrelation (xs ys : List JSNum) : ℚ :=
  if Nat.min xs.length ys.length < 2 then 0
  else
    let ps := finitePairs xs ys
    if ps.length < 2 then 0
    else
      let meanX := (ps.map Prod.fst).sum / ((ps.map Prod.fst).length : ℚ)
      let meanY := (ps.map Prod.snd).sum / ((ps.map Prod.snd).length : ℚ)
      let numerator := (ps.map (fun p => (p.1 - meanX) * (p.2 - meanY))).sum
      let denomX := (ps.map (fun p => (p.1 - meanX) * (p.1 - meanX))).sum
      let denomY := (ps.map (fun p => (p.2 - meanY) * (p.2 - meanY))).sum
      let denominator := ratSqrt (denomX * denomY)
      if denominator = 0 then 0 else numerator / denominator

/-- Left-pads a string with zeros to the given length. -/
def padZeros (s : String) (k : ℕ) : String :=
  String.mk (List.replicate (k - s.length) '0') ++ s

/-- Fixed-precision decimal rendering of a rational, modelling
`x.toFixed(k)`. -/
def ratToFixed (k : ℕ) (q : ℚ) : String :=
  let m : ℤ := ratRound (q * ((10 : ℚ) ^ k))
  let sgn := if m < 0 then "-" else ""
  let a := m.natAbs
  let ip := a / 10 ^ k
  let fp := a % 10 ^ k
  sgn ++ toString ip ++ (if k = 0 then "" else "." ++ padZeros (toString fp) k)

/-- The `RegressionResult` record of `correlationAnalysis.ts`. -/
structure RegressionResult where
  slope : ℚ
  intercept : ℚ
  rSquared : ℚ
  equation : String
deriving DecidableEq, Repr

/-- `calculateLinearRegression` of `correlationAnalysis.ts` (least squares
with the floor-at-zero clamp on R squared). -/
def calculateLinearRegression (xs ys : List JSNum) : RegressionResult :=
  let ps := finitePairs xs ys
  if ps.length < 2 then
    { slope := 0, intercept := 0, rSquared := 0, equation := "y = 0" }
  else
    let meanX := (ps.map Prod.fst).sum / ((ps.map Prod.fst).length : ℚ)
    let meanY := (ps.map Prod.snd).sum / ((ps.map Prod.snd).length : ℚ)
    let numerator := (ps.map (fun p => (p.1 - meanX) * (p.2 - meanY))).sum
    let denominator := (ps.map (fun p => (p.1 - meanX) ^ 2)).sum
    let slope : ℚ := if denominator ≠ 0 then numerator / denominator else 0
    let intercept : ℚ := meanY - slope * meanX
    let ssRes : ℚ := (ps.map (fun p => (p.2 - (slope * p.1 + intercept)) ^ 2)).sum
    let ssTot : ℚ := (ps.map (fun p => (p.2 - meanY) ^ 2)).sum
    let rSquared : ℚ := if ssTot ≠ 0 then 1 - ssRes / ssTot else 0
    let slopeStr :=
      if 0 ≤ slope then ratToFixed 4 slope else "(" ++ ratToFixed 4 slope ++ ")"
    let interceptStr :=
      if 0 ≤ intercept then "+ " ++ ratToFixed 2 intercept
      else "- " ++ ratToFixed 2 |intercept|
    { slope := slope
      intercept := intercept
      rSquared := max 0 rSquared
      equation := "y = " ++ slopeStr ++ "x " ++ interceptStr }

/-- The finite entries of a numeric list, as kept by the
`!isNaN(v) && isFinite(v)` filter of the skewness and kurtosis routines. -/
def finiteVals (values : List JSNum) : List ℚ :=
  values.filterMap (fun v =>
    match v with
    | .num q => some q
    | _ => none)

/-- `calculateSkewness` of `correlationAnalysis.ts` (Fisher-Pearson adjusted
third standardized moment, with the `n < 3` and `std = 0` guards returning
zero). -/
def calculateSkewness (values : List JSNum) : JSNum :=
  let filtered := finiteVals values
  let n := filtered.length
  if n < 3 then .num 0
  else
    let mean := filtered.sum / (n : ℚ)
    let variance := (filtered.map (fun v => (v - mean) ^ 2)).sum / (n : ℚ)
    let std := ratSqrt variance
    if std = 0 then .num 0
    else
      let m3 := (filtered.map (fun v => ((v - mean) / std) ^ 3)).sum / (n : ℚ)
      let adjustment := ratSqrt ((n : ℚ) * ((n : ℚ) - 1)) / ((n : ℚ) - 2)
      .num (adjustment * m3)

/-- `calculateKurtosis` of `correlationAnalysis.ts` (excess kurtosis, with the
`n < 4` and `std = 0` guards returning zero). -/
def calculateKurtosis (values : List JSNum) : JSNum :=
  let filtered := finiteVals values
  let n := filtered.length
  if n < 4 then .num 0
  else
    let mean := filtered.sum / (n : ℚ)
    let variance := (filtered.map (fun v => (v - mean) ^ 2)).sum / (n : ℚ)
    let std := ratSqrt variance
    if std = 0 then .num 0
    else
      let m4 := (filtered.map (fun v => ((v - mean) / std) ^ 4)).sum / (n : ℚ)
      .num (m4 - 3)

/-- Whether a runtime value is a boolean (`typeof v === 'boolean'`). -/
def isBoolVal : JSVal → Bool
  | .vbool _ => true
  | _ => false

/-- The case-insensitive boolean tokens of the column type inferencer. -/
def boolTokens : List String := ["true", "false", "0", "1", "yes", "no"]

/-- `detectColumnType` of `enhancedVoiceService.ts`.  Calendar-date parsing
(`new Date(v)` validity) is environment defined in JavaScript, so it is taken
as an oracle argument `dateOk`; every theorem below holds for all oracles. -/
def detectColumnType (dateOk : JSVal → Bool) (values : List JSVal) : ColType :=
  let nonNullValues := values.filter notNullish
  if nonNullValues.length = 0 then .string
  else
    let boolValues := nonNullValues.filter (fun v =>
      isBoolVal v || boolTokens.contains (lowerString (jsToString v)))
    if boolValues.length = nonNullValues.length then .boolean
    else
      let numValues := nonNullValues.filter (fun v =>
        !(jsToNumber v).isNaNb && v ≠ JSVal.vstr "")
      if numValues.length = nonNullValues.length then .number
      else
        let dateValues := nonNullValues.filter dateOk
        if (nonNullValues.length : ℚ) * (8 / 10) < (dateValues.length : ℚ) then
          .date
        else .string

/-- The insight type tags of `types/analytics.ts`. -/
inductive InsightType where
  | pattern
  | outlier
  | correlation
  | trend
  | recommendation
deriving DecidableEq, Repr

/-- The insight severity tags. -/
inductive Severity where
  | info
  | warning
  | success
deriving DecidableEq, Repr

/-- Insight identifiers: the source derives them as strings
`"<rule>-<column>"` (for example `"null-" + column`) plus the two fixed
dataset-level identifiers; the constructors record exactly that rule-name and
column-name derivation, so distinct rules always yield distinct
identifiers. -/
inductive InsightId where
  | nullOf (c : String)
  | outlierOf (c : String)
  | stableOf (c : String)
  | rangeOf (c : String)
  | categoryOf (c : String)
  | sampleSize
  | sampleSizeSmall
  | correlationOpportunity
deriving DecidableEq, Repr

/-- The structured content of an insight.  The free-text `title`,
`description`, `whyItMatters`, `action` and `impact` fields of the source are
fixed templates instantiated from the same inputs as the fields kept here, so
they are omitted from the model; an absent `relatedColumns` is modelled as the
empty list. -/
structure AInsight where
  id : InsightId
  type : InsightType
  severity : Severity
  relatedColumns : List String
deriving DecidableEq, Repr

/-- `(stat.nullCount / (stat.count + stat.nullCount)) * 100`. -/
def nullPercentage (s : StatSummary) : ℚ :=
  ((s.nullCount : ℚ) / ((s.count : ℚ) + (s.nullCount : ℚ))) * 100

/-- The missing-data rule of `generateActionableInsights`
(`insightGenerator.ts` lines 16-35). -/
def missingDataInsight (s : StatSummary) : Option AInsight :=
  if 10 < nullPercentage s then
    some { id := .nullOf s.column
           type := .pattern
           severity := if 30 < nullPercentage s then .warning else .info
           relatedColumns := [s.column] }
  else none

/-- The variability rule of `generateActionableInsights` (coefficient of
variation; `cv > 100` outlier warning, else `cv < 10 && count > 100` stable
success). -/
def variabilityInsight (s : StatSummary) : Option AInsight :=
  match s.std, s.mean with
  | some std, some mean =>
      if mean ≠ JSNum.num 0 then
        let cv := JSNum.mul (JSNum.div std (JSNum.absOp mean)) (.num 100)
        if cv.gtb (.num 100) then
          some { id := .outlierOf s.column
                 type := .outlier
                 severity := .warning
                 relatedColumns := [s.column] }
        else if cv.ltb (.num 10) && decide (100 < s.count) then
          some { id := .stableOf s.column
                 type := .pattern
                 severity := .success
                 relatedColumns := [s.column] }
        else none
      else none
  | _, _ => none

/-- The wide-range rule of `generateActionableInsights`. -/
def rangeInsight (s : StatSummary) : Option AInsight :=
  match s.mean, s.min, s.max with
  | some mean, some mn, some mx =>
      let range := JSNum.sub mx mn
      let relativeRange := JSNum.mul (JSNum.div range (JSNum.absOp mean)) (.num 100)
      if relativeRange.gtb (.num 200) then
        some { id := .rangeOf s.column
               type := .trend
               severity := .info
               relatedColumns := [s.column] }
      else none
  | _, _, _ => none

/-- The low-cardinality rule of `generateActionableInsights`. -/
def categoryInsight (s : StatSummary) : Option AInsight :=
  if s.uniqueCount < 10 && decide (50 < s.count) && s.mean = none then
    some { id := .categoryOf s.column
           type := .pattern
           severity := .info
           relatedColumns := [s.column] }
  else none

/-- The sample-size rule of `generateActionableInsights`. -/
def sampleSizeInsights (ds : DataSet) : List AInsight :=
  if 1000 < ds.rowCount then
    [{ id := .sampleSize
       type := .pattern
       severity := .success
       relatedColumns := [] }]
  else if ds.rowCount < 100 then
    [{ id := .sampleSizeSmall
       type := .pattern
       severity := .warning
       relatedColumns := [] }]
  else []

/-- The correlation-readiness rule of `generateActionableInsights` (three or
more numeric columns). -/
def correlationInsights (stats : List StatSummary) : List AInsight :=
  let numericColumns := stats.filter (fun s => s.mean ≠ none)
  if 3 ≤ numericColumns.length then
    [{ id := .correlationOpportunity
       type := .recommendation
       severity := .info
       relatedColumns := numericColumns.map StatSummary.column }]
  else []

/-- `generateActionableInsights` of `insightGenerator.ts`: the five rule
passes run in source order, each pass visiting the statistics in list
order. -/
def generateActionableInsights (ds : DataSet) (stats : List StatSummary) :
    List AInsight :=
  stats.filterMap missingDataInsight ++
    stats.filterMap variabilityInsight ++
    stats.filterMap rangeInsight ++
    stats.filterMap categoryInsight ++
    sampleSizeInsights ds ++
    correlationInsights stats

/-- The outlier rule of the `generateInsights` variant in
`pdfReportGenerator.ts` (no `mean !== 0` guard; division by a zero mean flows
through the extended arithmetic). -/
def pdfOutlierInsight (s : StatSummary) : Option AInsight :=
  match s.std, s.mean with
  | some std, some mean =>
      let cv := JSNum.mul (JSNum.div std (JSNum.absOp mean)) (.num 100)
      if cv.gtb (.num 100) then
        some { id := .outlierOf s.column
               type := .outlier
               severity := .warning
               relatedColumns := [s.column] }
      else none
  | _, _ => none

/-- The low-cardinality rule of the `generateInsights` variant. -/
def pdfCategoryInsight (s : StatSummary) : Option AInsight :=
  if s.uniqueCount < 5 && decide (100 < s.count) then
    some { id := .categoryOf s.column
           type := .pattern
           severity := .info
           relatedColumns := [s.column] }
  else none

/-- The sample-size rule of the `generateInsights` variant. -/
def pdfSampleSizeInsights (ds : DataSet) : List AInsight :=
  if 1000 < ds.rowCount then
    [{ id := .sampleSize
       type := .pattern
       severity := .success
       relatedColumns := [] }]
  else []

/-- The correlation-hint rule of the `generateInsights` variant (two or more
numeric columns). -/
def pdfCorrelationInsights (stats : List StatSummary) : List AInsight :=
  let numericColumns := stats.filter (fun s => s.mean ≠ none)
  if 2 ≤ numericColumns.length then
    [{ id := .correlationOpportunity
       type := .recommendation
       severity := .info
       relatedColumns := numericColumns.map StatSummary.column }]
  else []

/-- `generateInsights` of `pdfReportGenerator.ts` (lines 220-294), which
shares the missing-data rule and thresholds with
`generateActionableInsights`. -/
def generateInsights (ds : DataSet) (stats : List StatSummary) : List AInsight :=
  stats.filterMap missingDataInsight ++
    stats.filterMap pdfOutlierInsight ++
    stats.filterMap pdfCategoryInsight ++
    pdfSampleSizeInsights ds ++
    pdfCorrelationInsights stats

/-- The `ValidationResult` record of `insightGenerator.ts` (validator half).
The warning, error and recommendation message lists are modelled by their
lengths: every message is a fixed template instantiated from inputs already
present in the model, and no claim inspects message text. -/
structure ValidationResult where
  isValid : Bool
  warnings : ℕ
  errors : ℕ
  recommendations : ℕ
  confidence : ℚ
deriving DecidableEq, Repr

/-- The per-issue contribution of one checked item: message counts plus the
confidence penalty it subtracts. -/
structure CheckDelta where
  warnings : ℕ := 0
  errors : ℕ := 0
  recommendations : ℕ := 0
  penalty : ℚ := 0
deriving DecidableEq, Repr

/-- Sums a list of per-item contributions. -/
def sumDeltas (l : List CheckDelta) : CheckDelta :=
  { warnings := (l.map CheckDelta.warnings).sum
    errors := (l.map CheckDelta.errors).sum
    recommendations := (l.map CheckDelta.recommendations).sum
    penalty := (l.map CheckDelta.penalty).sum }

/-- JavaScript `x || 1`: the falsy numbers `0` and NaN are replaced by `1`. -/
def jsOr1 (x : JSNum) : JSNum :=
  if x = JSNum.num 0 || x = JSNum.nan then .num 1 else x

/-- The correlation strength tags. -/
inductive Strength where
  | strong
  | moderate
  | weak
  | none
deriving DecidableEq, Repr

/-- The chart type tags of `types/analytics.ts`. -/
inductive ChartType where
  | bar
  | line
  | pie
  | scatter
  | histogram
  | boxplot
  | area
  | correlation
deriving DecidableEq, Repr

/-- One chart data point (`data: any[]`): the fields the embedded code reads,
each possibly absent. -/
structure ChartPoint where
  name : Option String := Option.none
  value : Option ℚ := Option.none
  x : Option ℚ := Option.none
  y : Option ℚ := Option.none
deriving DecidableEq, Repr

/-- The `correlation` sub-record of a `ChartConfig`. -/
structure CorrInfo where
  value : ℚ
  strength : Strength
  interpretation : String
deriving DecidableEq, Repr

/-- The `ChartConfig` record of `types/analytics.ts`. -/
structure ChartConfig where
  type : ChartType
  title : String
  xAxis : Option String := Option.none
  yAxis : Option String := Option.none
  data : List ChartPoint
  regression : Option RegressionResult := Option.none
  correlation : Option CorrInfo := Option.none
deriving DecidableEq, Repr

namespace DataValidator

/-- `DataValidator.validateDataIntegrity`: sample-size, missing-data,
column-type, and duplicate-row checks (`insightGenerator.ts` validator
half). -/
def validateDataIntegrity (ds : DataSet) : ValidationResult :=
  let sampleDelta : CheckDelta :=
    if ds.rowCount < 30 then { warnings := 1, recommendations := 1, penalty := 20 }
    else if ds.rowCount < 100 then { warnings := 1, penalty := 10 }
    else {}
  let totalCells : ℕ := ds.rowCount * ds.columns.length
  let missingCells : ℕ := (ds.columns.map DataColumn.nullCount).sum
  let missingPercentage : ℚ := ((missingCells : ℚ) / (totalCells : ℚ)) * 100
  let missingDelta : CheckDelta :=
    if 30 < missingPercentage then { errors := 1, recommendations := 1, penalty := 30 }
    else if 10 < missingPercentage then { warnings := 1, penalty := 15 }
    else {}
  let invalidCols := ds.columns.filter (fun col =>
    col.type = ColType.number &&
      decide (0 < (ds.rowCount : ℤ) -
        (((ds.rows.map (fun r => jsToNumber (rowGet r col.name))).filter
          (fun v => !v.isNaNb)).length : ℤ) - (col.nullCount : ℤ)))
  let colDelta : CheckDelta :=
    { warnings := invalidCols.length
      recommendations := invalidCols.length
      penalty := 5 * invalidCols.length }
  let duplicateCount : ℤ := (ds.rowCount : ℤ) - (ds.rows.dedup.length : ℤ)
  let dupDelta : CheckDelta :=
    if 0 < duplicateCount then
      { warnings := 1
        recommendations := 1
        penalty := min ((duplicateCount : ℚ) / (ds.rowCount : ℚ) * 20) 15 }
    else {}
  let total := sumDeltas [sampleDelta, missingDelta, colDelta, dupDelta]
  { isValid := total.errors = 0
    warnings := total.warnings
    errors := total.errors
    recommendations := total.recommendations
    confidence := max (100 - total.penalty) 0 }

/-- The per-statistic body of `DataValidator.validateStatistics`. -/
def statDelta (ds : DataSet) (s : StatSummary) : CheckDelta :=
  match columnLookup ds s.column with
  | Option.none => { errors := 1, penalty := 20 }
  | some column =>
      let numericDelta : CheckDelta :=
        match s.mean with
        | some statMean =>
            if column.type = ColType.number then
              let values := (ds.rows.map (fun r => jsToNumber (rowGet r s.column))).filter
                (fun v => !v.isNaNb)
              let actualMean := JSNum.div (jsSum values) (.num values.length)
              let meanDiff := JSNum.div (JSNum.absOp (JSNum.sub actualMean statMean))
                (JSNum.absOp (jsOr1 actualMean))
              let meanD : CheckDelta :=
                if meanDiff.gtb (.num (1 / 100)) then { errors := 1, penalty := 15 } else {}
              let stdD : CheckDelta :=
                match s.std with
                | some statStd =>
                    let variance := JSNum.div
                      (jsSum (values.map (fun v =>
                        JSNum.mul (JSNum.sub v actualMean) (JSNum.sub v actualMean))))
                      (.num values.length)
                    let actualStd := variance.sqrtOp
                    let stdDiff := JSNum.div (JSNum.absOp (JSNum.sub actualStd statStd))
                      (JSNum.absOp (jsOr1 actualStd))
                    if stdDiff.gtb (.num (1 / 100)) then { errors := 1, penalty := 15 } else {}
                | Option.none => {}
              let cvD : CheckDelta :=
                match s.std with
                | some statStd =>
                    let cv := JSNum.mul (JSNum.div statStd (JSNum.absOp (jsOr1 statMean)))
                      (.num 100)
                    if cv.gtb (.num 200) then
                      { warnings := 1, recommendations := 1, penalty := 10 }
                    else {}
                | Option.none => {}
              let rangeD : CheckDelta :=
                match s.min, s.max with
                | some mn, some mx =>
                    if mn.gtb mx then { errors := 1, penalty := 20 } else {}
                | _, _ => {}
              sumDeltas [meanD, stdD, cvD, rangeD]
            else {}
        | Option.none => {}
      let countD : CheckDelta :=
        if (s.count : ℤ) ≠ (ds.rowCount : ℤ) - (s.nullCount : ℤ) then
          { warnings := 1, penalty := 5 }
        else {}
      sumDeltas [numericDelta, countD]

/-- `DataValidator.validateStatistics`: recomputes mean and standard deviation
per summarised column and compares with one percent relative tolerance. -/
def validateStatistics (ds : DataSet) (stats : List StatSummary) : ValidationResult :=
  let total := sumDeltas (stats.map (statDelta ds))
  { isValid := total.errors = 0
    warnings := total.warnings
    errors := total.errors
    recommendations := total.recommendations
    confidence := max (100 - total.penalty) 0 }

/-- The per-chart body of `DataValidator.validateVisualizations`. -/
def chartDelta (ds : DataSet) (chart : ChartConfig) : CheckDelta :=
  if chart.data.length = 0 then { errors := 1, penalty := 20 }
  else
    let barPieD : CheckDelta :=
      if chart.type = ChartType.bar || chart.type = ChartType.pie then
        let totalChartValue : ℚ := (chart.data.map (fun p => p.value.getD 0)).sum
        match chart.xAxis with
        | some x =>
            match columnLookup ds x with
            | some _ =>
                let sourceValues := (ds.rows.map (fun r => rowGet r x)).filter
                  (fun v => v ≠ JSVal.vnull && v ≠ JSVal.vundefined)
                if (sourceValues.length : ℚ) * (11 / 10) < totalChartValue then
                  { warnings := 1, penalty := 10 }
                else {}
            | Option.none => {}
        | Option.none => {}
      else {}
    let corrD : CheckDelta :=
      if chart.type = ChartType.correlation then
        match chart.correlation, chart.regression with
        | some c, some reg =>
            let rD : CheckDelta :=
              if c.value < -1 || 1 < c.value then { errors := 1, penalty := 20 } else {}
            let r2D : CheckDelta :=
              if reg.rSquared < 0 || 1 < reg.rSquared then { errors := 1, penalty := 20 }
              else {}
            let consistencyD : CheckDelta :=
              if 5 / 100 < |(|c.value|) ^ 2 - reg.rSquared| then
                { warnings := 1, penalty := 10 }
              else {}
            sumDeltas [rD, r2D, consistencyD]
        | _, _ => { errors := 1, penalty := 15 }
      else {}
    let histD : CheckDelta :=
      if chart.type = ChartType.histogram then
        let binTotal : ℚ := (chart.data.map (fun p => p.value.getD 0)).sum
        match chart.xAxis with
        | some x =>
            match columnLookup ds x with
            | some sourceColumn =>
                if sourceColumn.type = ColType.number then
                  let numericValues :=
                    (ds.rows.map (fun r => jsToNumber (rowGet r x))).filter
                      (fun v => !v.isNaNb)
                  if (numericValues.length : ℚ) * (1 / 10) <
                      |binTotal - (numericValues.length : ℚ)|
                  then { warnings := 1, penalty := 10 }
                  else {}
                else {}
            | Option.none => {}
        | Option.none => {}
      else {}
    sumDeltas [barPieD, corrD, histD]

/-- `DataValidator.validateVisualizations`: chart-data and
correlation-config consistency checks. -/
def validateVisualizations (ds : DataSet) (charts : List ChartConfig) : ValidationResult :=
  let total := sumDeltas (charts.map (chartDelta ds))
  { isValid := total.errors = 0
    warnings := total.warnings
    errors := total.errors
    recommendations := total.recommendations
    confidence := max (100 - total.penalty) 0 }

/-- The strength bucketing used when re-deriving a correlation strength from
its absolute value. -/
def expectedStrength (r : ℚ) : Strength :=
  if 7 / 10 ≤ r then .strong
  else if 4 / 10 ≤ r then .moderate
  else if 2 / 10 ≤ r then .weak
  else .none

/-- The per-chart body of `DataValidator.validateCorrelations`. -/
def corrChartDelta (ds : DataSet) (chart : ChartConfig) : CheckDelta :=
  match chart.xAxis, chart.yAxis with
  | some x, some y =>
      let xValues := (ds.rows.map (fun r => jsToNumber (rowGet r x))).filter
        (fun v => !v.isNaNb)
      let yValues := (ds.rows.map (fun r => jsToNumber (rowGet r y))).filter
        (fun v => !v.isNaNb)
      let validPairs := Nat.min xValues.length yValues.length
      let sizeD : CheckDelta :=
        if validPairs < 10 then { warnings := 1, recommendations := 1, penalty := 20 }
        else if validPairs < 30 then { warnings := 1, penalty := 10 }
        else {}
      let strengthD : CheckDelta :=
        match chart.correlation with
        | some c =>
            if c.strength ≠ expectedStrength |c.value| then { warnings := 1, penalty := 5 }
            else {}
        | Option.none => {}
      sumDeltas [sizeD, strengthD]
  | _, _ => { errors := 1, penalty := 20 }

/-- `DataValidator.validateCorrelations`: sample-size adequacy and strength
classification checks over the correlation-type charts. -/
def validateCorrelations (ds : DataSet) (charts : List ChartConfig) : ValidationResult :=
  let total := sumDeltas
    ((charts.filter (fun c => c.type = ChartType.correlation)).map (corrChartDelta ds))
  { isValid := total.errors = 0
    warnings := total.warnings
    errors := total.errors
    recommendations := total.recommendations
    confidence := max (100 - total.penalty) 0 }

/-- `DataValidator.calculateCompleteness`. -/
def calculateCompleteness (ds : DataSet) : ℚ :=
  let totalCells : ℕ := ds.rowCount * ds.columns.length
  let missingCells : ℕ := (ds.columns.map DataColumn.nullCount).sum
  max 0 ((((totalCells : ℚ) - (missingCells : ℚ)) / (totalCells : ℚ)) * 100)

/-- `DataValidator.calculateAccuracy`. -/
def calculateAccuracy (ds : DataSet) (stats : List StatSummary) : ℚ :=
  let typePenalty : ℚ := (ds.columns.map (fun col =>
    if col.type = ColType.number then
      let values := ds.rows.map (fun r => rowGet r col.name)
      let numericValues := (values.map jsToNumber).filter (fun v => !v.isNaNb)
      let nonNullValues := values.filter notNullish
      if numericValues.length < nonNullValues.length then
        (((nonNullValues.length : ℚ) - (numericValues.length : ℚ)) /
          (nonNullValues.length : ℚ)) * 100 * (1 / 2)
      else 0
    else 0)).sum
  let anomalyPenalty : ℚ := (stats.map (fun s =>
    match s.std, s.mean with
    | some std, some mean =>
        if mean ≠ JSNum.num 0 then
          let cv := JSNum.mul (JSNum.div std (JSNum.absOp mean)) (.num 100)
          if cv.gtb (.num 300) then (10 : ℚ)
          else if cv.gtb (.num 200) then 5
          else 0
        else 0
    | _, _ => 0)).sum
  max 0 (100 - typePenalty - anomalyPenalty)

/-- `DataValidator.calculateConsistency`. -/
def calculateConsistency (ds : DataSet) : ℚ :=
  let duplicateRate : ℚ :=
    (((ds.rowCount : ℚ) - (ds.rows.dedup.length : ℚ)) / (ds.rowCount : ℚ)) * 100
  let mixedPenalty : ℚ := (ds.columns.map (fun col =>
    let values := (ds.rows.map (fun r => rowGet r col.name)).filter notNullish
    if 1 < (values.map jsTypeof).dedup.length then (5 : ℚ) else 0)).sum
  max 0 (100 - duplicateRate - mixedPenalty)

/-- The `DataQualityReport` record. -/
structure DataQualityReport where
  overall : ValidationResult
  statistics : ValidationResult
  visualizations : ValidationResult
  correlations : ValidationResult
  completeness : ℚ
  accuracy : ℚ
  consistency : ℚ
deriving DecidableEq, Repr

/-- `DataValidator.validateDataset`: runs the four sub-validations and
aggregates them; the overall confidence is
`Math.min(dataValidation.confidence, statsValidation.confidence,
chartsValidation.confidence, correlationValidation.confidence)`, and the
overall validity and message counts merge only the first three sub-reports,
exactly as in the source. -/
def validateDataset (ds : DataSet) (stats : List StatSummary)
    (charts : List ChartConfig) : DataQualityReport :=
  let dataValidation := validateDataIntegrity ds
  let statsValidation := validateStatistics ds stats
  let chartsValidation := validateVisualizations ds charts
  let correlationValidation := validateCorrelations ds charts
  let overallConfidence :=
    min (min (min dataValidation.confidence statsValidation.confidence)
      chartsValidation.confidence) correlationValidation.confidence
  { overall :=
      { isValid := dataValidation.isValid && statsValidation.isValid &&
          chartsValidation.isValid
        warnings := dataValidation.warnings + statsValidation.warnings +
          chartsValidation.warnings
        errors := dataValidation.errors + statsValidation.errors +
          chartsValidation.errors
        recommendations := dataValidation.recommendations +
          statsValidation.recommendations + chartsValidation.recommendations
        confidence := overallConfidence }
    statistics := statsValidation
    visualizations := chartsValidation
    correlations := correlationValidation
    completeness := calculateCompleteness ds
    accuracy := calculateAccuracy ds stats
    consistency := calculateConsistency ds }

end DataValidator

/-- The numeric column the histogram block of `generateCharts` charts: the
second selected numeric column when more than one exists, else the first
(`pdfReportGenerator.ts` line 387). -/
def histogramSourceCol (ds : DataSet) (columns : List String) : Option String :=
  let numericCols := columns.filter (fun col =>
    (columnLookup ds col).map DataColumn.type = some ColType.number)
  if numericCols.length = 0 then Option.none
  else if 1 < numericCols.length then numericCols.get? 1
  else numericCols.get? 0

/-- The values the histogram bins:
`dataset.rows.map(row => Number(row[col])).filter(v => !isNaN(v))`. -/
def histogramValues (ds : DataSet) (col : String) : List JSNum :=
  (ds.rows.map (fun r => jsToNumber (rowGet r col))).filter (fun v => !v.isNaNb)

/-- One iteration of the binning loop of `generateCharts`: the bin index is
`Math.min(Math.floor((v - min) / binSize), binCount - 1)` and the increment is
guarded by `binIndex >= 0 && binIndex < binCount`.  When the guard holds the
index is necessarily an integer-valued finite number (floor output or `9`), so
the fallthrough arm of the inner match is unreachable. -/
def histogramStep (minV binSize : JSNum) (bins : List ℕ) (v : JSNum) : List ℕ :=
  let binIndex := JSNum.minOp (JSNum.floorOp (JSNum.div (JSNum.sub v minV) binSize))
    (.num 9)
  if binIndex.geb (.num 0) && binIndex.ltb (.num 10) then
    match binIndex with
    | .num k => bins.set k.num.toNat ((bins.getD k.num.toNat 0) + 1)
    | _ => bins
  else bins

/-- The ten bin counters produced by the histogram block of `generateCharts`
(`pdfReportGenerator.ts` lines 388-404). -/
def histogramBins (values : List JSNum) : List ℕ :=
  let minV := jsMinList values
  let maxV := jsMaxList values
  let binSize := JSNum.div (JSNum.sub maxV minV) (.num 10)
  values.foldl (histogramStep minV binSize) (List.replicate 10 0)

/-- Fixed-precision rendering of an extended number, modelling
`x.toFixed(k)`. -/
def jsToFixedStr (k : ℕ) : JSNum → String
  | .num q => ratToFixed k q
  | .nan => "NaN"
  | .inf => "Infinity"
  | .ninf => "-Infinity"

/-- The histogram `ChartConfig` emitted by `generateCharts`, assembled from
the bin counters and the `(min + i * binSize).toFixed(1)` labels. -/
def generateHistogramChart (ds : DataSet) (columns : List String) : Option ChartConfig :=
  match histogramSourceCol ds columns with
  | Option.none => Option.none
  | some col =>
      let values := histogramValues ds col
      let minV := jsMinList values
      let binSize := JSNum.div (JSNum.sub (jsMaxList values) minV) (.num 10)
      let counts := histogramBins values
      some { type := .histogram
             title := "Histogram of " ++ col
             xAxis := some col
             yAxis := some "Frequency"
             data := ((List.range 10).zip counts).map (fun p =>
               { name := some (jsToFixedStr 1
                   (JSNum.add minV (JSNum.mul (.num p.1) binSize)))
                 value := some (p.2 : ℚ) }) }

/-- A four-row dataset over one numeric column holding 3, 1, 4, 2; its sorted
valid value sequence is 1, 2, 3, 4. -/
def dsFour : DataSet :=
  { name := "even"
    rows := [[("a", JSVal.vnum 3)], [("a", JSVal.vnum 1)],
             [("a", JSVal.vnum 4)], [("a", JSVal.vnum 2)]]
    columns := [{ name := "a", type := ColType.number, sample := [],
                  nullCount := 0, uniqueCount := 4 }]
    rowCount := 4
    uploadedAt := 0 }

/-- A dataset whose numeric column contains only non-numeric strings, so the
column has zero valid numeric values after coercion. -/
def dsNoNumeric : DataSet :=
  { name := "letters"
    rows := [[("a", JSVal.vstr "x")], [("a", JSVal.vstr "y")]]
    columns := [{ name := "a", type := ColType.number, sample := [],
                  nullCount := 0, uniqueCount := 2 }]
    rowCount := 2
    uploadedAt := 0 }

/-- A statistics record with 3 missing values out of 10 — a null percentage of
exactly 30 percent. -/
def stat30 : StatSummary := { column := "c", count := 7, nullCount := 3, uniqueCount := 7 }

/-- Decidable equality for `Except` results, written so that it evaluates by
kernel reduction. -/
instance instDecEqExcept {e a : Type} [DecidableEq e] [DecidableEq a] :
    DecidableEq (Except e a) := fun x y =>
  match x, y with
  | .ok u, .ok v =>
      if h : u = v then .isTrue (congrArg Except.ok h)
      else .isFalse (fun he => h (Except.ok.inj he))
  | .error u, .error v =>
      if h : u = v then .isTrue (congrArg Except.error h)
      else .isFalse (fun he => h (Except.error.inj he))
  | .ok _, .error _ => .isFalse (fun he => Except.noConfusion he)
  | .error _, .ok _ => .isFalse (fun he => Except.noConfusion he)

/-- The median field of the first statistics record of a result, when one
exists. -/
def firstMedian (e : Except JSException (List StatSummary)) : Option (Option JSNum) :=
  match e with
  | .ok (s :: _) => some s.median
  | _ => none

/-- Whether a statistics run returned normally. -/
def isOkStats (e : Except JSException (List StatSummary)) : Bool :=
  match e with
  | .ok _ => true
  | .error _ => false

theorem length_insertAscNum (x : JSNum) (l : List JSNum) :
    (insertAscNum x l).length = l.length + 1 := by
  induction l with
  | nil => rfl
  | cons y ys ih =>
      simp only [insertAscNum]
      split
      · simp
      · simp [ih]

theorem length_sortAsc (l : List JSNum) : (sortAsc l).length = l.length := by
  induction l with
  | nil => rfl
  | cons x xs ih =>
      simp only [sortAsc, List.foldr_cons] at *
      rw [length_insertAscNum, ih]
      simp

theorem get?_eq_getD_of_lt {α : Type} (l : List α) (i : ℕ) (d : α)
    (h : i < l.length) : l.get? i = some (l.getD i d) := by
  induction l generalizing i with
  | nil => simp at h
  | cons x xs ih =>
      cases i with
      | zero => rfl
      | succ n =>
          simp only [List.get?, List.getD, List.getElem?_cons_succ]
          simpa using ih n (by simpa using h)

theorem calculateStatistics_cons (ds : DataSet) (c : String) (cs : List String) :
    calculateStatistics ds (c :: cs) =
      (statForColumn ds c).bind (fun s =>
        (calculateStatistics ds cs).bind (fun rest => .ok (s :: rest))) := rfl

theorem statForColumn_median (ds : DataSet) (c : String)
    (hty : (columnLookup ds c).map DataColumn.type = some ColType.number)
    (hne : statNumValues ds c ≠ []) :
    ∃ s, statForColumn ds c = .ok s ∧
      s.median = some (((sortedColumnValues ds c).getD
        ((sortedColumnValues ds c).length / 2) (.num 0)).toFixed2) := by
  have hlen : (sortedColumnValues ds c).length = (statNumValues ds c).length :=
    length_sortAsc _
  have hpos : 0 < (sortedColumnValues ds c).length := by
    rw [hlen]; exact List.length_pos.mpr hne
  have hidx : (sortedColumnValues ds c).length / 2 < (sortedColumnValues ds c).length :=
    Nat.div_lt_self hpos (by norm_num)
  have hget := get?_eq_getD_of_lt _ _ (JSNum.num 0) hidx
  unfold statForColumn
  rw [if_pos hty]
  simp only [sortedColumnValues, statNumValues, rawColumnValues] at hget ⊢
  rw [hget]
  exact ⟨_, rfl, rfl⟩

/-- C1, counterexample: on the numeric column 3, 1, 4, 2 the sorted valid
sequence is 1, 2, 3, 4 (even count 4), the lower-middle element at index
4/2 - 1 is 2, yet `calculateStatistics` reports the median 3 — so the claim
that the median is the lower-middle element at index n/2 - 1 is false. -/
theorem calculateStatistics_median_not_lower_middle :
    firstMedian (calculateStatistics dsFour ["a"]) = some (some (.num 3)) ∧
    sortedColumnValues dsFour "a" = [.num 1, .num 2, .num 3, .num 4] ∧
    ((sortedColumnValues dsFour "a").getD (4 / 2 - 1) (.num 0)).toFixed2 = .num 2 ∧
    (some (JSNum.num 3) : Option JSNum) ≠ some (.num 2) := by
  refine ⟨?_, ?_, ?_, ?_⟩ <;> with_unfolding_all decide

/-- C1, amended: on a numeric column whose valid numeric values have even
count n with n at least 2, `calculateStatistics` returns as median the
two-decimal rounding of the UPPER-middle element of the sorted value sequence
(the element at 0-based index n/2), and never averages the two middle
values. -/
theorem calculateStatistics_median_upper_middle (ds : DataSet) (c : String)
    (hty : (columnLookup ds c).map DataColumn.type = some ColType.number)
    (h2 : 2 ≤ (statNumValues ds c).length)
    (heven : (statNumValues ds c).length % 2 = 0) :
    ∃ s, calculateStatistics ds [c] = .ok [s] ∧
      s.median = some (((sortedColumnValues ds c).getD
        ((sortedColumnValues ds c).length / 2) (.num 0)).toFixed2) := by
  have hne : statNumValues ds c ≠ [] := by
    intro h
    rw [h] at h2
    simp at h2
  obtain ⟨s, hs, hm⟩ := statForColumn_median ds c hty hne
  refine ⟨s, ?_, hm⟩
  rw [calculateStatistics_cons, hs]
  rfl

/-- C1, witness: the amended median theorem applied to the concrete four-row
dataset. -/
theorem calculateStatistics_median_upper_middle_witness :
    (columnLookup dsFour "a").map DataColumn.type = some ColType.number ∧
    2 ≤ (statNumValues dsFour "a").length ∧
    (statNumValues dsFour "a").length % 2 = 0 ∧
    ∃ s, calculateStatistics dsFour ["a"] = .ok [s] ∧
      s.median = some (((sortedColumnValues dsFour "a").getD
        ((sortedColumnValues dsFour "a").length / 2) (.num 0)).toFixed2) :=
  ⟨by decide, by decide, by decide,
    calculateStatistics_median_upper_middle dsFour "a" (by decide) (by decide) (by decide)⟩

theorem finiteVals_eq_nil (l : List JSNum)
    (h : l.filter (fun v => !v.isNaNb) = []) : finiteVals l = [] := by
  induction l with
  | nil => rfl
  | cons x xs ih =>
      cases x with
      | num q => exact absurd h (by simp [List.filter_cons, JSNum.isNaNb])
      | inf => exact absurd h (by simp [List.filter_cons, JSNum.isNaNb])
      | ninf => exact absurd h (by simp [List.filter_cons, JSNum.isNaNb])
      | nan =>
          simp only [finiteVals, List.filterMap_cons]
          apply ih
          simpa [List.filter_cons, JSNum.isNaNb] using h

/-- C2, amended: on a numeric column with zero valid numeric values after
coercion, `calculateStatistics` does not yield `std = 0` — it raises the
`TypeError` of `median.toFixed(2)` on an `undefined` median — while
`calculateSkewness` and `calculateKurtosis` do short-circuit to `0` on the
coerced value list of such a column. -/
theorem zero_valid_numeric_throws (ds : DataSet) (c : String)
    (hty : (columnLookup ds c).map DataColumn.type = some ColType.number)
    (h0 : statNumValues ds c = []) :
    calculateStatistics ds [c] = .error .typeError ∧
    calculateSkewness (((rawColumnValues ds c).filter notNullish).map jsToNumber) = .num 0 ∧
    calculateKurtosis (((rawColumnValues ds c).filter notNullish).map jsToNumber) = .num 0 := by
  have h0' : (((rawColumnValues ds c).filter notNullish).map jsToNumber).filter
      (fun n => !n.isNaNb) = [] := h0
  have hfv : finiteVals (((rawColumnValues ds c).filter notNullish).map jsToNumber) = [] :=
    finiteVals_eq_nil _ h0'
  refine ⟨?_, ?_, ?_⟩
  · rw [calculateStatistics_cons]
    have hcol : statForColumn ds c = .error .typeError := by
      unfold statForColumn
      rw [if_pos hty]
      rw [h0']
      rfl
    rw [hcol]
    rfl
  · unfold calculateSkewness
    rw [hfv]
    rfl
  · unfold calculateKurtosis
    rw [hfv]
    rfl

/-- C2, counterexample: a numeric column holding only the strings `x` and `y`
has zero valid numeric values, and `calculateStatistics` raises a `TypeError`
on it instead of yielding a summary with `std = 0`. -/
theorem zero_valid_numeric_not_std_zero :
    statNumValues dsNoNumeric "a" = [] ∧
    calculateStatistics dsNoNumeric ["a"] = .error .typeError ∧
    isOkStats (calculateStatistics dsNoNumeric ["a"]) = false := by
  refine ⟨?_, ?_, ?_⟩ <;> with_unfolding_all decide

/-- C2, witness: the amended theorem applied to the concrete all-string
numeric column. -/
theorem zero_valid_numeric_throws_witness :
    (columnLookup dsNoNumeric "a").map DataColumn.type = some ColType.number ∧
    statNumValues dsNoNumeric "a" = [] ∧
    (calculateStatistics dsNoNumeric ["a"] = .error .typeError ∧
      calculateSkewness (((rawColumnValues dsNoNumeric "a").filter notNullish).map jsToNumber) = .num 0 ∧
      calculateKurtosis (((rawColumnValues dsNoNumeric "a").filter notNullish).map jsToNumber) = .num 0) :=
  ⟨by decide, by decide, zero_valid_numeric_throws dsNoNumeric "a" (by decide) (by decide)⟩

theorem length_filter_eq_iff {α : Type} (p : α → Bool) (l : List α) :
    (l.filter p).length = l.length ↔ ∀ a ∈ l, p a := by
  induction l with
  | nil => simp
  | cons x xs ih =>
      by_cases hx : p x = true
      · rw [List.filter_cons, if_pos hx]
        simp only [List.length_cons, Nat.add_right_cancel_iff, ih, List.mem_cons]
        constructor
        · intro h a ha
          rcases ha with rfl | ha
          · exact hx
          · exact h a ha
        · intro h a ha
          exact h a (Or.inr ha)
      · have hle := List.length_filter_le p xs
        rw [List.filter_cons, if_neg hx]
        constructor
        · intro h
          simp only [List.length_cons] at h
          omega
        · intro h
          exact absurd (h x (List.mem_cons_self x xs)) hx

/-- C3, amended: when a column has at least one non-null value and the
boolean check does not apply, `detectColumnType` classifies it as `number` if
and only if every non-null, non-empty value coerces to something other than
NaN — a value coercing to the non-finite `Infinity` therefore DOES count
toward the `number` classification, because the source tests only
`!isNaN(Number(v))` and never `isFinite`. -/
theorem detectColumnType_number_iff (dateOk : JSVal → Bool) (values : List JSVal)
    (hne : (values.filter notNullish).length ≠ 0)
    (hbool : ((values.filter notNullish).filter (fun v =>
        isBoolVal v || boolTokens.contains (lowerString (jsToString v)))).length ≠
      (values.filter notNullish).length) :
    (detectColumnType dateOk values = ColType.number ↔
      ∀ v ∈ values.filter notNullish, !(jsToNumber v).isNaNb) := by
  have hmem : ∀ v ∈ values.filter notNullish, v ≠ JSVal.vstr "" := by
    intro v hv
    have := (List.mem_filter.mp hv).2
    simp only [notNullish, Bool.and_eq_true, decide_eq_true_eq] at this
    exact this.2
  have hpred : ((values.filter notNullish).filter (fun v =>
        !(jsToNumber v).isNaNb && v ≠ JSVal.vstr "")).length =
      ((values.filter notNullish).filter (fun v => !(jsToNumber v).isNaNb)).length := by
    congr 1
    apply List.filter_congr
    intro v hv
    simp [hmem v hv]
  unfold detectColumnType
  rw [if_neg hne, if_neg hbool]
  by_cases hnum : (((values.filter notNullish).filter (fun v =>
      !(jsToNumber v).isNaNb && v ≠ JSVal.vstr "")).length =
    (values.filter notNullish).length)
  · rw [if_pos hnum]
    rw [hpred] at hnum
    simpa using (length_filter_eq_iff _ _).mp hnum
  · rw [if_neg hnum]
    rw [hpred] at hnum
    have hforall : ¬ ∀ v ∈ values.filter notNullish, !(jsToNumber v).isNaNb := by
      intro h
      exact hnum ((length_filter_eq_iff _ _).mpr h)
    have hlhs : (let dateValues := (values.filter notNullish).filter dateOk
        if ((values.filter notNullish).length : ℚ) * (8 / 10) <
            (dateValues.length : ℚ) then ColType.date
        else ColType.string) ≠ ColType.number := by
      dsimp only
      split <;> simp
    exact iff_of_false hlhs hforall

/-- C3, counterexample: the single value `Infinity` parses to a non-finite
number, the boolean check does not apply, and `detectColumnType` still
classifies the column as `number`, contradicting the finiteness requirement of
the claim. -/
theorem detectColumnType_infinity_counted :
    detectColumnType (fun _ => false) [JSVal.vstr "Infinity"] = ColType.number ∧
    (jsToNumber (JSVal.vstr "Infinity")).isFiniteb = false ∧
    (jsToNumber (JSVal.vstr "Infinity")).isNaNb = false ∧
    ([JSVal.vstr "Infinity"].filter notNullish).filter (fun v =>
      isBoolVal v || boolTokens.contains (lowerString (jsToString v))) = [] := by
  refine ⟨?_, ?_, ?_, ?_⟩ <;> with_unfolding_all decide

/-- C3, witness: the amended classification criterion applied to the concrete
column holding `Infinity` and `2`. -/
theorem detectColumnType_number_iff_witness :
    ((([JSVal.vstr "Infinity", JSVal.vstr "2"]).filter notNullish).length ≠ 0) ∧
    ((([JSVal.vstr "Infinity", JSVal.vstr "2"]).filter notNullish).filter (fun v =>
        isBoolVal v || boolTokens.contains (lowerString (jsToString v)))).length ≠
      (([JSVal.vstr "Infinity", JSVal.vstr "2"]).filter notNullish).length ∧
    (detectColumnType (fun _ => false) [JSVal.vstr "Infinity", JSVal.vstr "2"] = ColType.number ↔
      ∀ v ∈ ([JSVal.vstr "Infinity", JSVal.vstr "2"]).filter notNullish,
        !(jsToNumber v).isNaNb) :=
  ⟨by with_unfolding_all decide, by with_unfolding_all decide,
    detectColumnType_number_iff (fun _ => false) _
      (by with_unfolding_all decide) (by with_unfolding_all decide)⟩

theorem ratSqrt_mul_self (d : ℚ) (hd : 0 ≤ d) : ratSqrt (d * d) = d := by
  rcases eq_or_lt_of_le hd with h0 | hpos
  · rw [← h0]
    simp [ratSqrt]
  · have hne : ¬ (d * d ≤ 0) := not_le.mpr (mul_pos hpos hpos)
    unfold ratSqrt
    rw [if_neg hne, Rat.mul_self_num, Rat.mul_self_den]
    have hnn : 0 ≤ d.num := Rat.num_nonneg.mpr hd
    have hk : ((d.num.toNat : ℤ)) = d.num := Int.toNat_of_nonneg hnn
    have htn : (d.num * d.num).toNat = d.num.toNat * d.num.toNat := by
      have h1 : d.num * d.num = ((d.num.toNat * d.num.toNat : ℕ) : ℤ) := by
        rw [Int.natCast_mul, hk]
      rw [h1, Int.toNat_natCast]
    rw [htn, Nat.sqrt_eq, Nat.sqrt_eq]
    have hq : ((d.num.toNat : ℚ)) = ((d.num : ℚ)) := by exact_mod_cast hk
    rw [hq, Rat.num_div_den]

theorem zip_self {α : Type} (l : List α) : l.zip l = l.map (fun a => (a, a)) := by
  induction l with
  | nil => rfl
  | cons x xs ih => simp [List.zip_cons_cons, ih]

theorem finitePairs_self (xs : List JSNum) :
    finitePairs xs xs = (finiteVals xs).map (fun q => (q, q)) := by
  unfold finitePairs finiteVals
  rw [zip_self]
  induction xs with
  | nil => rfl
  | cons v vs ih =>
      cases v <;> simp_all [List.filterMap_cons, List.map_cons]

theorem two_le_length_of_mem_ne {α : Type} {l : List α} {a b : α}
    (ha : a ∈ l) (hb : b ∈ l) (hab : a ≠ b) : 2 ≤ l.length := by
  cases l with
  | nil => simp at ha
  | cons x xs =>
      cases xs with
      | nil =>
          simp only [List.mem_singleton] at ha hb
          exact absurd (ha.trans hb.symm) hab
      | cons y ys => simp [List.length_cons]

theorem sum_sq_pos (l : List ℚ) (m : ℚ) {a b : ℚ}
    (ha : a ∈ l) (hb : b ∈ l) (hab : a ≠ b) :
    0 < (l.map (fun q => (q - m) * (q - m))).sum := by
  have hnn : ∀ x ∈ l.map (fun q => (q - m) * (q - m)), 0 ≤ x := by
    intro x hx
    obtain ⟨q, _, rfl⟩ := List.mem_map.mp hx
    exact mul_self_nonneg _
  have key : ∀ c ∈ l, c ≠ m → 0 < (l.map (fun q => (q - m) * (q - m))).sum := by
    intro c hc hcm
    have hmem : (c - m) * (c - m) ∈ l.map (fun q => (q - m) * (q - m)) :=
      List.mem_map_of_mem _ hc
    have hpos : 0 < (c - m) * (c - m) := mul_self_pos.mpr (sub_ne_zero.mpr hcm)
    exact lt_of_lt_of_le hpos (List.single_le_sum hnn _ hmem)
  rcases ne_or_eq a m with ham | ham
  · exact key a ha ham
  · have hbm : b ≠ m := fun hbm => hab (ham.trans hbm.symm)
    exact key b hb hbm

/-- C4, amended: the Pearson correlation of a series with itself is `1`
whenever the series holds two distinct finite values (so that the variance is
nonzero); degenerate series — fewer than two finite values, or all values
equal — return `0` instead through the guards of the source. -/
theorem calculateCorrelation_self_one (xs : List JSNum) (a b : ℚ)
    (ha : JSNum.num a ∈ xs) (hb : JSNum.num b ∈ xs) (hab : a ≠ b) :
    calculateCorrelation xs xs = 1 := by
  have hafv : a ∈ finiteVals xs := by
    unfold finiteVals
    exact List.mem_filterMap.mpr ⟨JSNum.num a, ha, rfl⟩
  have hbfv : b ∈ finiteVals xs := by
    unfold finiteVals
    exact List.mem_filterMap.mpr ⟨JSNum.num b, hb, rfl⟩
  have h2 : 2 ≤ (finiteVals xs).length := two_le_length_of_mem_ne hafv hbfv hab
  have hxslen : (finiteVals xs).length ≤ xs.length := by
    unfold finiteVals
    exact List.length_filterMap_le _ _
  unfold calculateCorrelation
  rw [finitePairs_self]
  have hmin : Nat.min xs.length xs.length = xs.length := by
    simp [Nat.min_def]
  rw [if_neg (by rw [hmin]; omega)]
  simp only [List.length_map, List.map_map, Function.comp_def]
  rw [if_neg (by omega)]
  simp only [List.map_id']
  have hd : 0 < ((finiteVals xs).map (fun q =>
      (q - (finiteVals xs).sum / ((finiteVals xs).length : ℚ)) *
      (q - (finiteVals xs).sum / ((finiteVals xs).length : ℚ)))).sum :=
    sum_sq_pos _ _ hafv hbfv hab
  rw [ratSqrt_mul_self _ hd.le, if_neg hd.ne']
  exact div_self hd.ne'

/-- C4, counterexample: the constant series 1, 1 paired with itself has zero
denominator, so `calculateCorrelation` returns `0`, not `1` — the claim fails
for series without two distinct finite values. -/
theorem calculateCorrelation_self_constant_zero :
    calculateCorrelation [JSNum.num 1, JSNum.num 1] [JSNum.num 1, JSNum.num 1] = 0 ∧
    (0 : ℚ) ≠ 1 :=
  ⟨by with_unfolding_all decide, by norm_num⟩

/-- C4, witness: the self-correlation theorem applied to the concrete series
1, 2. -/
theorem calculateCorrelation_self_one_witness :
    JSNum.num 1 ∈ [JSNum.num 1, JSNum.num 2] ∧
    JSNum.num 2 ∈ [JSNum.num 1, JSNum.num 2] ∧
    (1 : ℚ) ≠ 2 ∧
    calculateCorrelation [JSNum.num 1, JSNum.num 2] [JSNum.num 1, JSNum.num 2] = 1 :=
  ⟨by decide, by decide, by norm_num,
    calculateCorrelation_self_one [JSNum.num 1, JSNum.num 2] 1 2
      (by decide) (by decide) (by norm_num)⟩

/-- C5: for every pair of numeric series the `rSquared` returned by
`calculateLinearRegression` lies in the interval from 0 to 1 — the source
clamps a negative `1 - SSres/SStot` up to 0 with `Math.max(0, ...)` and
applies no ceiling, and with a least-squares fit over exact arithmetic the
computed value never exceeds 1 because `SSres/SStot` is nonnegative. -/
theorem calculateLinearRegression_rSquared_range (xs ys : List JSNum) :
    0 ≤ (calculateLinearRegression xs ys).rSquared ∧
    (calculateLinearRegression xs ys).rSquared ≤ 1 := by
  unfold calculateLinearRegression
  by_cases hlen : (finitePairs xs ys).length < 2
  · rw [if_pos hlen]
    norm_num
  · rw [if_neg hlen]
    dsimp only
    constructor
    · exact le_max_left _ _
    · apply max_le (by norm_num)
      split
      · apply sub_le_self
        apply div_nonneg
        · apply List.sum_nonneg
          intro x hx
          obtain ⟨p, _, rfl⟩ := List.mem_map.mp hx
          positivity
        · apply List.sum_nonneg
          intro x hx
          obtain ⟨p, _, rfl⟩ := List.mem_map.mp hx
          positivity
      · norm_num

theorem filterMap_singleton {α β : Type} (f : α → Option β) (a : α) :
    [a].filterMap f = (f a).toList := by
  cases h : f a <;> simp [List.filterMap_cons, h]

theorem variabilityInsight_id (s : StatSummary) (v : AInsight)
    (h : variabilityInsight s = some v) :
    v.id = .outlierOf s.column ∨ v.id = .stableOf s.column := by
  unfold variabilityInsight at h
  split at h
  · dsimp only at h
    split_ifs at h
    all_goals first
      | exact Option.noConfusion h
      | (cases Option.some.inj h; exact Or.inl rfl)
      | (cases Option.some.inj h; exact Or.inr rfl)
  · exact Option.noConfusion h

theorem rangeInsight_id (s : StatSummary) (v : AInsight)
    (h : rangeInsight s = some v) : v.id = .rangeOf s.column := by
  unfold rangeInsight at h
  split at h
  · dsimp only at h
    split_ifs at h
    all_goals first
      | exact Option.noConfusion h
      | (cases Option.some.inj h; rfl)
  · exact Option.noConfusion h

theorem categoryInsight_id (s : StatSummary) (v : AInsight)
    (h : categoryInsight s = some v) : v.id = .categoryOf s.column := by
  unfold categoryInsight at h
  split_ifs at h
  all_goals first
    | exact Option.noConfusion h
    | (cases Option.some.inj h; rfl)

theorem pdfOutlierInsight_id (s : StatSummary) (v : AInsight)
    (h : pdfOutlierInsight s = some v) : v.id = .outlierOf s.column := by
  unfold pdfOutlierInsight at h
  split at h
  · dsimp only at h
    split_ifs at h
    all_goals first
      | exact Option.noConfusion h
      | (cases Option.some.inj h; rfl)
  · exact Option.noConfusion h

theorem pdfCategoryInsight_id (s : StatSummary) (v : AInsight)
    (h : pdfCategoryInsight s = some v) : v.id = .categoryOf s.column := by
  unfold pdfCategoryInsight at h
  split_ifs at h
  all_goals first
    | exact Option.noConfusion h
    | (cases Option.some.inj h; rfl)

theorem sampleSizeInsights_ids (ds : DataSet) (v : AInsight)
    (h : v ∈ sampleSizeInsights ds) :
    v.id = .sampleSize ∨ v.id = .sampleSizeSmall := by
  unfold sampleSizeInsights at h
  split_ifs at h
  · cases List.mem_singleton.mp h
    exact Or.inl rfl
  · cases List.mem_singleton.mp h
    exact Or.inr rfl
  · simp at h

theorem pdfSampleSizeInsights_ids (ds : DataSet) (v : AInsight)
    (h : v ∈ pdfSampleSizeInsights ds) : v.id = .sampleSize := by
  unfold pdfSampleSizeInsights at h
  split_ifs at h
  · cases List.mem_singleton.mp h
    rfl
  · simp at h

theorem correlationInsights_ids (stats : List StatSummary) (v : AInsight)
    (h : v ∈ correlationInsights stats) : v.id = .correlationOpportunity := by
  unfold correlationInsights at h
  dsimp only at h
  split_ifs at h
  · cases List.mem_singleton.mp h
    rfl
  · simp at h

theorem pdfCorrelationInsights_ids (stats : List StatSummary) (v : AInsight)
    (h : v ∈ pdfCorrelationInsights stats) : v.id = .correlationOpportunity := by
  unfold pdfCorrelationInsights at h
  dsimp only at h
  split_ifs at h
  · cases List.mem_singleton.mp h
    rfl
  · simp at h

theorem filter_null_toList_nil (c : String) (o : Option AInsight)
    (ho : ∀ v, o = some v → v.id ≠ InsightId.nullOf c) :
    o.toList.filter (fun i => i.id = InsightId.nullOf c) = [] := by
  cases h : o with
  | none => rfl
  | some v =>
      simp only [Option.toList_some, List.filter_cons, List.filter_nil]
      rw [if_neg (by simpa using ho v h)]

/-- C6: in both insight generators the missing-data rule emits its `pattern`
insight for a column exactly when the null percentage strictly exceeds 10,
with severity `warning` exactly when it strictly exceeds 30 and `info`
otherwise; in particular the concrete column with exactly 30 percent nulls is
classified `info`. -/
theorem missing_data_rule_characterization (ds : DataSet) (s : StatSummary) :
    ((generateActionableInsights ds [s]).filter
        (fun i => i.id = InsightId.nullOf s.column)) =
      (if 10 < nullPercentage s then
        [{ id := .nullOf s.column
           type := .pattern
           severity := if 30 < nullPercentage s then .warning else .info
           relatedColumns := [s.column] }]
      else []) ∧
    ((generateInsights ds [s]).filter
        (fun i => i.id = InsightId.nullOf s.column)) =
      (if 10 < nullPercentage s then
        [{ id := .nullOf s.column
           type := .pattern
           severity := if 30 < nullPercentage s then .warning else .info
           relatedColumns := [s.column] }]
      else []) ∧
    nullPercentage stat30 = 30 ∧
    (generateActionableInsights dsFour [stat30]).filter
        (fun i => i.id = InsightId.nullOf "c") =
      [{ id := .nullOf "c", type := .pattern, severity := .info,
         relatedColumns := ["c"] }] := by
  have hvar := filter_null_toList_nil s.column (variabilityInsight s)
    (fun v hv => by rcases variabilityInsight_id s v hv with h | h <;> simp [h])
  have hrange := filter_null_toList_nil s.column (rangeInsight s)
    (fun v hv => by simp [rangeInsight_id s v hv])
  have hcat := filter_null_toList_nil s.column (categoryInsight s)
    (fun v hv => by simp [categoryInsight_id s v hv])
  have hpout := filter_null_toList_nil s.column (pdfOutlierInsight s)
    (fun v hv => by simp [pdfOutlierInsight_id s v hv])
  have hpcat := filter_null_toList_nil s.column (pdfCategoryInsight s)
    (fun v hv => by simp [pdfCategoryInsight_id s v hv])
  have hsample : (sampleSizeInsights ds).filter
      (fun i => i.id = InsightId.nullOf s.column) = [] := by
    apply List.filter_eq_nil_iff.mpr
    intro v hv
    rcases sampleSizeInsights_ids ds v hv with h | h <;> simp [h]
  have hpsample : (pdfSampleSizeInsights ds).filter
      (fun i => i.id = InsightId.nullOf s.column) = [] := by
    apply List.filter_eq_nil_iff.mpr
    intro v hv
    simp [pdfSampleSizeInsights_ids ds v hv]
  have hcorr : (correlationInsights [s]).filter
      (fun i => i.id = InsightId.nullOf s.column) = [] := by
    apply List.filter_eq_nil_iff.mpr
    intro v hv
    simp [correlationInsights_ids [s] v hv]
  have hpcorr : (pdfCorrelationInsights [s]).filter
      (fun i => i.id = InsightId.nullOf s.column) = [] := by
    apply List.filter_eq_nil_iff.mpr
    intro v hv
    simp [pdfCorrelationInsights_ids [s] v hv]
  have hmiss : ((missingDataInsight s).toList.filter
      (fun i => i.id = InsightId.nullOf s.column)) =
      (if 10 < nullPercentage s then
        [{ id := .nullOf s.column
           type := .pattern
           severity := if 30 < nullPercentage s then .warning else .info
           relatedColumns := [s.column] }]
      else []) := by
    unfold missingDataInsight
    split_ifs with h10 h30 <;> simp
  refine ⟨?_, ?_, ?_, ?_⟩
  · unfold generateActionableInsights
    rw [filterMap_singleton, filterMap_singleton, filterMap_singleton,
      filterMap_singleton]
    simp only [List.filter_append]
    rw [hmiss, hvar, hrange, hcat, hsample, hcorr]
    simp
  · unfold generateInsights
    rw [filterMap_singleton, filterMap_singleton, filterMap_singleton]
    simp only [List.filter_append]
    rw [hmiss, hpout, hpcat, hpsample, hpcorr]
    simp
  · with_unfolding_all decide
  · with_unfolding_all decide

/-- C7: the insight generator is a pure function of the dataset and the
statistics list, so two runs on the same dataset and an unchanged statistics
list yield identical ordered insight lists — same identifiers, same order,
same contents. -/
theorem generateActionableInsights_idempotent (ds1 ds2 : DataSet)
    (stats1 stats2 : List StatSummary) (hds : ds1 = ds2) (hstats : stats1 = stats2) :
    generateActionableInsights ds1 stats1 = generateActionableInsights ds2 stats2 := by
  rw [hds, hstats]

/-- C7, witness: two runs over the concrete four-row dataset and the concrete
statistics list coincide. -/
theorem generateActionableInsights_idempotent_witness :
    dsFour = dsFour ∧ ([stat30] : List StatSummary) = [stat30] ∧
    generateActionableInsights dsFour [stat30] =
      generateActionableInsights dsFour [stat30] :=
  ⟨rfl, rfl, generateActionableInsights_idempotent dsFour dsFour [stat30] [stat30] rfl rfl⟩

/-- C8: the overall confidence of `DataValidator.validateDataset` is the
minimum of the four sub-validation confidences (data integrity, statistics,
visualizations, correlations) — a single weak link caps the overall score,
which in particular never exceeds any sub-confidence, so it is not an
average. -/
theorem validateDataset_overall_confidence_min (ds : DataSet)
    (stats : List StatSummary) (charts : List ChartConfig) :
    (DataValidator.validateDataset ds stats charts).overall.confidence =
      min (min (min (DataValidator.validateDataIntegrity ds).confidence
          (DataValidator.validateStatistics ds stats).confidence)
        (DataValidator.validateVisualizations ds charts).confidence)
        (DataValidator.validateCorrelations ds charts).confidence ∧
    (DataValidator.validateDataset ds stats charts).overall.confidence ≤
      (DataValidator.validateDataIntegrity ds).confidence ∧
    (DataValidator.validateDataset ds stats charts).overall.confidence ≤
      (DataValidator.validateStatistics ds stats).confidence ∧
    (DataValidator.validateDataset ds stats charts).overall.confidence ≤
      (DataValidator.validateVisualizations ds charts).confidence ∧
    (DataValidator.validateDataset ds stats charts).overall.confidence ≤
      (DataValidator.validateCorrelations ds charts).confidence := by
  refine ⟨rfl, ?_, ?_, ?_, ?_⟩
  · exact le_trans (min_le_left _ _) (le_trans (min_le_left _ _) (min_le_left _ _))
  · exact le_trans (min_le_left _ _) (le_trans (min_le_left _ _) (min_le_right _ _))
  · exact le_trans (min_le_left _ _) (min_le_right _ _)
  · exact min_le_right _ _

theorem JSNum.sub_num (a b : ℚ) : JSNum.sub (.num a) (.num b) = .num (a - b) := by
  simp [JSNum.sub, JSNum.neg, JSNum.add, sub_eq_add_neg]

theorem exists_map_num (l : List JSNum) (hfin : ∀ v ∈ l, v.isFiniteb = true) :
    ∃ qs : List ℚ, l = qs.map JSNum.num := by
  induction l with
  | nil => exact ⟨[], rfl⟩
  | cons v t ih =>
      obtain ⟨qs, hqs⟩ := ih (fun w hw => hfin w (List.mem_cons_of_mem _ hw))
      cases v with
      | num q => exact ⟨q :: qs, by rw [List.map_cons, hqs]⟩
      | nan => exact absurd (hfin .nan (List.mem_cons_self _ _)) (by simp [JSNum.isFiniteb])
      | inf => exact absurd (hfin .inf (List.mem_cons_self _ _)) (by simp [JSNum.isFiniteb])
      | ninf => exact absurd (hfin .ninf (List.mem_cons_self _ _)) (by simp [JSNum.isFiniteb])

theorem foldl_minOp_map (qs : List ℚ) (a : ℚ) :
    (qs.map JSNum.num).foldl JSNum.minOp (.num a) = .num (qs.foldl min a) := by
  induction qs generalizing a with
  | nil => rfl
  | cons q t ih =>
      simp only [List.map_cons, List.foldl_cons]
      exact ih (min a q)

theorem foldl_maxOp_map (qs : List ℚ) (a : ℚ) :
    (qs.map JSNum.num).foldl JSNum.maxOp (.num a) = .num (qs.foldl max a) := by
  induction qs generalizing a with
  | nil => rfl
  | cons q t ih =>
      simp only [List.map_cons, List.foldl_cons]
      exact ih (max a q)

theorem jsMinList_map_cons (q : ℚ) (t : List ℚ) :
    jsMinList ((q :: t).map JSNum.num) = .num (t.foldl min q) := by
  unfold jsMinList
  simp only [List.map_cons, List.foldl_cons]
  exact foldl_minOp_map t q

theorem jsMaxList_map_cons (q : ℚ) (t : List ℚ) :
    jsMaxList ((q :: t).map JSNum.num) = .num (t.foldl max q) := by
  unfold jsMaxList
  simp only [List.map_cons, List.foldl_cons]
  exact foldl_maxOp_map t q

theorem foldl_min_le (t : List ℚ) (a : ℚ) :
    t.foldl min a ≤ a ∧ ∀ x ∈ t, t.foldl min a ≤ x := by
  induction t generalizing a with
  | nil => exact ⟨le_refl a, by simp⟩
  | cons q s ih =>
      obtain ⟨h1, h2⟩ := ih (min a q)
      refine ⟨le_trans h1 (min_le_left _ _), ?_⟩
      intro x hx
      rcases List.mem_cons.mp hx with rfl | hx
      · exact le_trans h1 (min_le_right _ _)
      · exact h2 x hx

theorem foldl_le_max (t : List ℚ) (a : ℚ) :
    a ≤ t.foldl max a ∧ ∀ x ∈ t, x ≤ t.foldl max a := by
  induction t generalizing a with
  | nil => exact ⟨le_refl a, by simp⟩
  | cons q s ih =>
      obtain ⟨h1, h2⟩ := ih (max a q)
      refine ⟨le_trans (le_max_left _ _) h1, ?_⟩
      intro x hx
      rcases List.mem_cons.mp hx with rfl | hx
      · exact le_trans (le_max_right _ _) h1
      · exact h2 x hx

theorem list_sum_set (l : List ℕ) (k : ℕ) (h : k < l.length) :
    (l.set k (l.getD k 0 + 1)).sum = l.sum + 1 := by
  induction l generalizing k with
  | nil => simp at h
  | cons x t ih =>
      cases k with
      | zero => simp [List.set, List.getD]; omega
      | succ n =>
          have hn : n < t.length := by simpa using h
          simp only [List.set, List.getD_cons_succ, List.sum_cons, ih n hn]
          omega

theorem binIndex_reduction (minV maxV q : ℚ) (hlt : minV < maxV)
    (hq0 : minV ≤ q) (hq1 : q ≤ maxV) :
    JSNum.minOp (JSNum.floorOp (JSNum.div (JSNum.sub (.num q) (.num minV))
        (JSNum.div (JSNum.sub (.num maxV) (.num minV)) (.num 10))))
      (.num 9) =
      .num ((min (⌊(q - minV) / ((maxV - minV) / 10)⌋ : ℤ) 9 : ℤ)) ∧
    0 ≤ min (⌊(q - minV) / ((maxV - minV) / 10)⌋ : ℤ) 9 ∧
    min (⌊(q - minV) / ((maxV - minV) / 10)⌋ : ℤ) 9 < 10 := by
  have hbs : (0 : ℚ) < (maxV - minV) / 10 := by
    apply div_pos (by linarith) (by norm_num)
  have hx0 : 0 ≤ (q - minV) / ((maxV - minV) / 10) := div_nonneg (by linarith) hbs.le
  have hfl0 : 0 ≤ ⌊(q - minV) / ((maxV - minV) / 10)⌋ :=
    Int.le_floor.mpr (by exact_mod_cast hx0)
  refine ⟨?_, le_min hfl0 (by norm_num),
    lt_of_le_of_lt (min_le_right _ _) (by norm_num)⟩
  rw [JSNum.sub_num, JSNum.sub_num]
  have h10 : JSNum.div (.num (maxV - minV)) (.num 10) = .num ((maxV - minV) / 10) := by
    simp [JSNum.div]
  rw [h10]
  have hdiv : JSNum.div (.num (q - minV)) (.num ((maxV - minV) / 10)) =
      .num ((q - minV) / ((maxV - minV) / 10)) := by
    simp [JSNum.div, hbs.ne']
  rw [hdiv]
  simp only [JSNum.floorOp, JSNum.minOp]
  congr 1
  push_cast
  rfl

theorem histogramStep_count (minV maxV q : ℚ) (hlt : minV < maxV)
    (hq0 : minV ≤ q) (hq1 : q ≤ maxV) (bins : List ℕ) (hlen : bins.length = 10) :
    (histogramStep (.num minV)
        (JSNum.div (JSNum.sub (.num maxV) (.num minV)) (.num 10)) bins (.num q)).length = 10 ∧
    (histogramStep (.num minV)
        (JSNum.div (JSNum.sub (.num maxV) (.num minV)) (.num 10)) bins (.num q)).sum =
      bins.sum + 1 := by
  obtain ⟨hidx, h0, h9⟩ := binIndex_reduction minV maxV q hlt hq0 hq1
  unfold histogramStep
  rw [hidx]
  have hguard : ((JSNum.num ((min (⌊(q - minV) / ((maxV - minV) / 10)⌋ : ℤ) 9 : ℤ) : ℚ)).geb
      (.num 0) && (JSNum.num ((min (⌊(q - minV) / ((maxV - minV) / 10)⌋ : ℤ) 9 : ℤ) : ℚ)).ltb
      (.num 10)) = true := by
    simp only [JSNum.geb, JSNum.leb, JSNum.ltb, Bool.and_eq_true, decide_eq_true_eq]
    constructor
    · exact_mod_cast h0
    · exact_mod_cast h9
  rw [if_pos hguard]
  have hnum : ((((min (⌊(q - minV) / ((maxV - minV) / 10)⌋ : ℤ) 9 : ℤ)) : ℚ)).num =
      (min (⌊(q - minV) / ((maxV - minV) / 10)⌋ : ℤ) 9 : ℤ) := Rat.num_intCast _
  dsimp only
  rw [hnum]
  have hi : (min (⌊(q - minV) / ((maxV - minV) / 10)⌋ : ℤ) 9).toNat < bins.length := by
    rw [hlen]
    omega
  exact ⟨by rw [List.length_set, hlen], list_sum_set bins _ hi⟩

theorem histogram_fold (minV maxV : ℚ) (hlt : minV < maxV) :
    ∀ (qs : List ℚ) (bins : List ℕ), bins.length = 10 →
      (∀ q ∈ qs, minV ≤ q ∧ q ≤ maxV) →
      ((qs.map JSNum.num).foldl (histogramStep (.num minV)
          (JSNum.div (JSNum.sub (.num maxV) (.num minV)) (.num 10))) bins).length = 10 ∧
      ((qs.map JSNum.num).foldl (histogramStep (.num minV)
          (JSNum.div (JSNum.sub (.num maxV) (.num minV)) (.num 10))) bins).sum =
        bins.sum + qs.length := by
  intro qs
  induction qs with
  | nil =>
      intro bins hlen _
      exact ⟨hlen, by simp⟩
  | cons q t ih =>
      intro bins hlen hbound
      simp only [List.map_cons, List.foldl_cons, List.length_cons]
      obtain ⟨hq0, hq1⟩ := hbound q (List.mem_cons_self _ _)
      obtain ⟨hlen', hsum'⟩ := histogramStep_count minV maxV q hlt hq0 hq1 bins hlen
      obtain ⟨ihlen, ihsum⟩ := ih _ hlen' (fun x hx => hbound x (List.mem_cons_of_mem _ hx))
      exact ⟨ihlen, by rw [ihsum, hsum']; ring⟩

/-- C9: for the histogram block of `generateCharts`, when every valid numeric
value of the charted column is finite and the maximum exceeds the minimum,
the ten bins partition the values — the bin counters sum to the number of
valid values — and each value `v` receives the bin index
`min(floor((v - min) / binSize), 9)` with `binSize = (max - min) / 10`, an
index that is always at least 0 and strictly below 10 (the clamp to 9 firing
exactly when the raw index would reach the bin count at `v = max`). -/
theorem generateCharts_histogram_partition (values : List JSNum) (minV maxV : ℚ)
    (hfin : ∀ v ∈ values, v.isFiniteb = true)
    (hmin : jsMinList values = .num minV)
    (hmax : jsMaxList values = .num maxV)
    (hlt : minV < maxV) :
    (histogramBins values).length = 10 ∧
    (histogramBins values).sum = values.length ∧
    (∀ q : ℚ, JSNum.num q ∈ values →
      JSNum.minOp (JSNum.floorOp (JSNum.div (JSNum.sub (.num q) (.num minV))
          (JSNum.div (JSNum.sub (.num maxV) (.num minV)) (.num 10))))
        (.num 9) =
        .num ((min (⌊(q - minV) / ((maxV - minV) / 10)⌋ : ℤ) 9 : ℤ)) ∧
      0 ≤ min (⌊(q - minV) / ((maxV - minV) / 10)⌋ : ℤ) 9 ∧
      min (⌊(q - minV) / ((maxV - minV) / 10)⌋ : ℤ) 9 < 10) := by
  obtain ⟨qs, rfl⟩ := exists_map_num values hfin
  cases qs with
  | nil => exact absurd hmin (by simp [jsMinList])
  | cons q t =>
      rw [jsMinList_map_cons] at hmin
      rw [jsMaxList_map_cons] at hmax
      have hminV : minV = t.foldl min q := (JSNum.num.inj hmin).symm
      have hmaxV : maxV = t.foldl max q := (JSNum.num.inj hmax).symm
      have hbound : ∀ x ∈ q :: t, minV ≤ x ∧ x ≤ maxV := by
        intro x hx
        obtain ⟨hmle, hmall⟩ := foldl_min_le t q
        obtain ⟨hxle, hxall⟩ := foldl_le_max t q
        rw [hminV, hmaxV]
        rcases List.mem_cons.mp hx with rfl | hx
        · exact ⟨hmle, hxle⟩
        · exact ⟨hmall x hx, hxall x hx⟩
      obtain ⟨hl, hs⟩ := histogram_fold minV maxV hlt (q :: t) (List.replicate 10 0)
        (by simp) hbound
      have hbinseq : histogramBins ((q :: t).map JSNum.num) =
          ((q :: t).map JSNum.num).foldl (histogramStep (.num minV)
            (JSNum.div (JSNum.sub (.num maxV) (.num minV)) (.num 10)))
            (List.replicate 10 0) := by
        unfold histogramBins
        rw [jsMinList_map_cons, jsMaxList_map_cons, ← hminV, ← hmaxV]
      refine ⟨?_, ?_, ?_⟩
      · rw [hbinseq]
        exact hl
      · rw [hbinseq, hs]
        simp
      · intro q' hq'
        have hq'mem : q' ∈ q :: t := by
          obtain ⟨x, hx, hxx⟩ := List.mem_map.mp hq'
          cases JSNum.num.inj hxx
          exact hx
        obtain ⟨hb0, hb1⟩ := hbound q' hq'mem
        exact binIndex_reduction minV maxV q' hlt hb0 hb1

/-- C9, witness: the histogram partition applied to the concrete values
0, 5, 10. -/
theorem generateCharts_histogram_partition_witness :
    (∀ v ∈ [JSNum.num 0, JSNum.num 5, JSNum.num 10], v.isFiniteb = true) ∧
    jsMinList [JSNum.num 0, JSNum.num 5, JSNum.num 10] = .num 0 ∧
    jsMaxList [JSNum.num 0, JSNum.num 5, JSNum.num 10] = .num 10 ∧
    ((0 : ℚ) < 10) ∧
    ((histogramBins [JSNum.num 0, JSNum.num 5, JSNum.num 10]).length = 10 ∧
     (histogramBins [JSNum.num 0, JSNum.num 5, JSNum.num 10]).sum =
       ([JSNum.num 0, JSNum.num 5, JSNum.num 10] : List JSNum).length ∧
     (∀ q : ℚ, JSNum.num q ∈ [JSNum.num 0, JSNum.num 5, JSNum.num 10] →
       JSNum.minOp (JSNum.floorOp (JSNum.div (JSNum.sub (.num q) (.num 0))
           (JSNum.div (JSNum.sub (.num 10) (.num 0)) (.num 10))))
         (.num 9) =
         .num ((min (⌊(q - 0) / ((10 - 0) / 10)⌋ : ℤ) 9 : ℤ)) ∧
       0 ≤ min (⌊(q - 0) / ((10 - 0) / 10)⌋ : ℤ) 9 ∧
       min (⌊(q - 0) / ((10 - 0) / 10)⌋ : ℤ) 9 < 10)) :=
  ⟨by decide, by with_unfolding_all decide, by with_unfolding_all decide, by norm_num,
    generateCharts_histogram_partition [JSNum.num 0, JSNum.num 5, JSNum.num 10] 0 10
      (by decide) (by with_unfolding_all decide) (by with_unfolding_all decide)
      (by norm_num)⟩
